import Mathlib

/-!
Verification of the two small web applications in this repository:
the customer-registration app (`project_cadastro_usuario/`) and the
login/registration system (`tela_login/`).

The SQLite tables are modelled as explicit in-memory states: a list of
rows together with the next AUTOINCREMENT id.  Each Python function from
`banco.py` and each Flask route handler from `app.py` / `main.py` is
translated into a pure Lean function over that state.  Flask's session
dictionary is modelled as a record of the two keys the login app uses,
and the user-visible outcome of a request (flash messages plus the
redirect target or rendered template) is made explicit as a `Response`.
-/

namespace PyWebLab

/-- Python's `str.strip()`: remove leading and trailing whitespace.
Written over the character list so that it evaluates by kernel
reduction on concrete strings. -/
def pyStrip (s : String) : String :=
  ⟨((s.data.dropWhile Char.isWhitespace).reverse.dropWhile
      Char.isWhitespace).reverse⟩

/-! ## Credential primitive (werkzeug.security)

`generate_password_hash` / `check_password_hash` come from werkzeug, an
external library (not part of this repository).  Per its documented
contract they form an ideal salted digest: hashing is salted (the same
password gives different digests for different salts), and verification
recomputes the digest for the stored salt and compares, returning true
exactly when the candidate password equals the hashed one.  We model the
digest abstractly as the (salt, password) pair sealed in an opaque
record; irreversibility is outside a shallow embedding, but the
input/output behaviour of `check_password_hash` is captured exactly. -/

structure PasswordHash where
  salt : Nat
  digest : String
deriving DecidableEq, Repr

/-- Model of `werkzeug.security.generate_password_hash`: an ideal salted
digest.  The salt is an explicit parameter standing for werkzeug's
internal randomness. -/
def generate_password_hash (salt : Nat) (senha : String) : PasswordHash :=
  { salt := salt, digest := senha }

/-- Model of `werkzeug.security.check_password_hash`: recompute the
digest for the stored salt and compare. -/
def check_password_hash (h : PasswordHash) (senha : String) : Bool :=
  (generate_password_hash h.salt senha).digest == h.digest

/-! ## `tela_login/banco.py` -/

/-- One row of the `usuarios` table: id, nome, email, senha (hash). -/
structure Usuario where
  id : Nat
  nome : String
  email : String
  senha : PasswordHash
deriving DecidableEq, Repr

/-- State of the `usuarios` table: rows in insertion order plus the next
AUTOINCREMENT id. -/
structure BancoUsuarios where
  rows : List Usuario
  nextId : Nat
deriving DecidableEq, Repr

/-- `criar_tabela` on a fresh database: empty table, AUTOINCREMENT
starts at 1.  (On an existing database the CREATE TABLE IF NOT EXISTS is
a no-op.) -/
def criar_tabela_usuarios : BancoUsuarios :=
  { rows := [], nextId := 1 }

/-- Error raised by the SQLite engine itself (not caught anywhere in the
repository): violation of the UNIQUE(email) constraint of `usuarios`. -/
inductive DBError where
  | uniqueViolation
deriving DecidableEq, Repr

/-- `inserir_usuario(nome, email, senha)`: hash the password with
`generate_password_hash`, then INSERT the row.  The `usuarios` schema
declares `email TEXT NOT NULL UNIQUE`, so SQLite raises an
IntegrityError when a row with the same email already exists; the
`salt` parameter stands for werkzeug's fresh salt for this call. -/
def inserir_usuario (db : BancoUsuarios) (nome email senha : String)
    (salt : Nat) : Except DBError BancoUsuarios :=
  let senha_hash := generate_password_hash salt senha
  if db.rows.any (fun u => u.email == email) then
    .error .uniqueViolation
  else
    .ok { rows := db.rows ++ [{ id := db.nextId, nome := nome,
                                email := email, senha := senha_hash }],
          nextId := db.nextId + 1 }

/-- `buscar_usuario_por_email(email)`: SELECT id, nome, senha FROM
usuarios WHERE email = ?; `fetchone()` returns the first matching row
(in store order) or None. -/
def buscar_usuario_por_email (db : BancoUsuarios) (email : String) :
    Option (Nat × String × PasswordHash) :=
  (db.rows.find? (fun u => u.email == email)).map
    (fun u => (u.id, u.nome, u.senha))

/-- `verificar_senha(senha_hash, senha_digitada)`: delegate to
`check_password_hash`. -/
def verificar_senha (senha_hash : PasswordHash) (senha_digitada : String) :
    Bool :=
  check_password_hash senha_hash senha_digitada

/-! ## `project_cadastro_usuario/banco.py` -/

/-- One row of the `clientes` table: id, nome, email.  No uniqueness
constraint on email. -/
structure Cliente where
  id : Nat
  nome : String
  email : String
deriving DecidableEq, Repr

/-- State of the `clientes` table: rows in insertion order plus the next
AUTOINCREMENT id. -/
structure BancoClientes where
  rows : List Cliente
  nextId : Nat
deriving DecidableEq, Repr

/-- `criar_tabela` of the registration app on a fresh database. -/
def criar_tabela_clientes : BancoClientes :=
  { rows := [], nextId := 1 }

/-- `inserir_cliente(nome, email)`: INSERT INTO clientes (nome, email);
the id is assigned by AUTOINCREMENT.  No constraint can fail. -/
def inserir_cliente (db : BancoClientes) (nome email : String) :
    BancoClientes :=
  { rows := db.rows ++ [{ id := db.nextId, nome := nome, email := email }],
    nextId := db.nextId + 1 }

/-- `listar_clientes()`: SELECT * FROM clientes, all rows as
(id, nome, email) tuples in store order. -/
def listar_clientes (db : BancoClientes) : List (Nat × String × String) :=
  db.rows.map (fun c => (c.id, c.nome, c.email))

/-- Well-formedness maintained by SQLite AUTOINCREMENT: every stored id
is strictly below the next id to be assigned, so freshly assigned ids
are distinct from all existing ones. -/
def BancoClientes.WF (db : BancoClientes) : Prop :=
  ∀ c ∈ db.rows, c.id < db.nextId

/-! ## HTTP layer: responses, routes, session -/

/-- Routes of the two applications, as targets of `url_for`. -/
inductive Route where
  | login | cadastro | dashboard | logout
  | index | salvar | listar
deriving DecidableEq, Repr

/-- A `flash(message, category)` call. -/
structure Flash where
  message : String
  category : String
deriving DecidableEq, Repr

/-- A rendered template together with the data passed to it. -/
inductive View where
  | loginPage
  | cadastroPage
  | indexPage
  | dashboardPage (nome : String)
  | listarPage (usuarios : List (Nat × String × String))
deriving DecidableEq, Repr

/-- The final action of a handler: render a template or redirect. -/
inductive Outcome where
  | render (v : View)
  | redirect (r : Route)
deriving DecidableEq, Repr

/-- What the client sees from one request: the flash messages emitted
during the request and the outcome. -/
structure Response where
  flashes : List Flash
  outcome : Outcome
deriving DecidableEq, Repr

/-- Flask's session dictionary, restricted to the two keys the login
app ever writes: `usuario_id` and `usuario_nome`.  `none` means the key
is absent. -/
structure Session where
  usuario_id : Option Nat
  usuario_nome : Option String
deriving DecidableEq, Repr

/-- A session in which neither key is present (fresh client, or after
`session.clear()`). -/
def Session.empty : Session :=
  { usuario_id := none, usuario_nome := none }

/-! ## `tela_login/main.py` route handlers -/

/-- GET /login: render login.html. -/
def login_get : Response :=
  { flashes := [], outcome := .render .loginPage }

/-- POST /login.  Strips both fields, validates non-emptiness, looks the
user up by email and verifies the password; on success stores
`usuario_id` and `usuario_nome` in the session and redirects to the
dashboard, otherwise flashes a generic error and redirects back to
login.  Returns the response and the session after the request. -/
def login_post (db : BancoUsuarios) (sess : Session)
    (email senha : String) : Response × Session :=
  let email := pyStrip email
  let senha := pyStrip senha
  if email = "" ∨ senha = "" then
    ({ flashes := [{ message := "Preencha todos os campos!",
                     category := "danger" }],
       outcome := .redirect .login }, sess)
  else
    match buscar_usuario_por_email db email with
    | some (uid, unome, uhash) =>
      if verificar_senha uhash senha then
        ({ flashes := [{ message := "Login realizado com sucesso!",
                         category := "success" }],
           outcome := .redirect .dashboard },
         { usuario_id := some uid, usuario_nome := some unome })
      else
        ({ flashes := [{ message := "Email ou senha incorretos!",
                         category := "danger" }],
           outcome := .redirect .login }, sess)
    | none =>
      ({ flashes := [{ message := "Email ou senha incorretos!",
                       category := "danger" }],
         outcome := .redirect .login }, sess)

/-- GET /cadastro: render cadastro.html. -/
def cadastro_get : Response :=
  { flashes := [], outcome := .render .cadastroPage }

/-- POST /cadastro.  Strips the three fields, validates non-emptiness,
rejects an already-registered email, otherwise inserts the user (hashing
the password inside `inserir_usuario`).  `none` models an uncaught
exception escaping the handler (the insert hitting the UNIQUE
constraint, which the preceding lookup makes unreachable). -/
def cadastro_post (db : BancoUsuarios) (nome email senha : String)
    (salt : Nat) : Option (Response × BancoUsuarios) :=
  let nome := pyStrip nome
  let email := pyStrip email
  let senha := pyStrip senha
  if nome = "" ∨ email = "" ∨ senha = "" then
    some ({ flashes := [{ message := "Preencha todos os campos!",
                          category := "danger" }],
            outcome := .redirect .cadastro }, db)
  else
    match buscar_usuario_por_email db email with
    | some _ =>
      some ({ flashes := [{ message := "Este email ja esta cadastrado!",
                            category := "danger" }],
              outcome := .redirect .cadastro }, db)
    | none =>
      match inserir_usuario db nome email senha salt with
      | .error _ => none
      | .ok db2 =>
        some ({ flashes := [{ message := "Cadastro realizado! Faca login.",
                              category := "success" }],
                outcome := .redirect .login }, db2)

/-- GET /dashboard.  If `usuario_id` is not in the session, flash and
redirect to login; otherwise render dashboard.html with the session's
`usuario_nome`.  `none` models the KeyError raised if `usuario_nome`
were absent while `usuario_id` is present (unreachable through the
app's own handlers). -/
def dashboard_get (sess : Session) : Option Response :=
  match sess.usuario_id with
  | none =>
    some { flashes := [{ message := "Faca login para acessar!",
                         category := "danger" }],
           outcome := .redirect .login }
  | some _ =>
    sess.usuario_nome.map
      (fun nome => { flashes := [],
                     outcome := .render (.dashboardPage nome) })

/-- GET /logout: `session.clear()`, flash, redirect to login. -/
def logout_get (_sess : Session) : Response × Session :=
  ({ flashes := [{ message := "Voce saiu da conta.",
                   category := "success" }],
     outcome := .redirect .login }, Session.empty)

/-- One request to the login application. -/
inductive LoginRequest where
  | getLogin
  | postLogin (email senha : String)
  | getCadastro
  | postCadastro (nome email senha : String)
  | getDashboard
  | getLogout
deriving DecidableEq, Repr

/-- Dispatcher over the login app's routes: one request against the
current store and session, producing the response and the store and
session after the request (`none` = uncaught exception). -/
def handle (db : BancoUsuarios) (sess : Session) (salt : Nat) :
    LoginRequest → Option (Response × BancoUsuarios × Session)
  | .getLogin => some (login_get, db, sess)
  | .postLogin email senha =>
    let (resp, sess2) := login_post db sess email senha
    some (resp, db, sess2)
  | .getCadastro => some (cadastro_get, db, sess)
  | .postCadastro nome email senha =>
    (cadastro_post db nome email senha salt).map
      (fun p => (p.1, p.2, sess))
  | .getDashboard =>
    (dashboard_get sess).map (fun resp => (resp, db, sess))
  | .getLogout =>
    let (resp, sess2) := logout_get sess
    some (resp, db, sess2)

/-! ## `project_cadastro_usuario/app.py` route handlers -/

/-- GET /: render index.html. -/
def index_get : Response :=
  { flashes := [], outcome := .render .indexPage }

/-- POST /salvar.  Strips both fields, validates non-emptiness, inserts
the cliente and redirects to the listing. -/
def salvar (db : BancoClientes) (nome email : String) :
    Response × BancoClientes :=
  let nome := pyStrip nome
  let email := pyStrip email
  if nome = "" ∨ email = "" then
    ({ flashes := [{ message := "Preencha todos os campos!",
                     category := "danger" }],
       outcome := .redirect .index }, db)
  else
    let db2 := inserir_cliente db nome email
    ({ flashes := [{ message := "Cliente cadastrado com sucesso!",
                     category := "success" }],
       outcome := .redirect .listar }, db2)

/-- GET /listar: render listar.html with all clientes. -/
def listar (db : BancoClientes) : Response :=
  { flashes := [], outcome := .render (.listarPage (listar_clientes db)) }

/-! ## Theorems -/

/-- C1: the digest produced at user insertion (`generate_password_hash`
inside `inserir_usuario`) verifies against the original password and
against no other: for every salt and password `p`,
`verificar_senha (generate_password_hash salt p) p` is true, and for
every `p2 ≠ p` , `verificar_senha (generate_password_hash salt p) p2`
is false. -/
theorem hash_verify_roundtrip (salt : Nat) (p p2 : String) (h : p ≠ p2) :
    verificar_senha (generate_password_hash salt p) p = true ∧
    verificar_senha (generate_password_hash salt p) p2 = false := by
  constructor
  · simp [verificar_senha, check_password_hash, generate_password_hash]
  · simp only [verificar_senha, check_password_hash,
      generate_password_hash, beq_eq_false_iff_ne, ne_eq]
    exact fun hh => h hh.symm

/-- Witness for C1 at salt 0, passwords "a" and "b". -/
theorem hash_verify_roundtrip_witness :
    ("a" : String) ≠ "b" ∧
    (verificar_senha (generate_password_hash 0 "a") "a" = true ∧
     verificar_senha (generate_password_hash 0 "a") "b" = false) :=
  ⟨by decide, hash_verify_roundtrip 0 "a" "b" (by decide)⟩

/-- C8: `buscar_usuario_por_email` either returns the stored
(id, nome, senha-hash) row whose email equals the query, or returns the
not-found sentinel `none` exactly when no such row exists; being a total
function it never raises on absence. -/
theorem buscar_usuario_por_email_spec (db : BancoUsuarios) (e : String) :
    (∀ r, buscar_usuario_por_email db e = some r →
      ∃ u, u ∈ db.rows ∧ u.email = e ∧ r = (u.id, u.nome, u.senha)) ∧
    (buscar_usuario_por_email db e = none ↔ ∀ u ∈ db.rows, u.email ≠ e) := by
  constructor
  · intro r hr
    unfold buscar_usuario_por_email at hr
    cases hfind : db.rows.find? (fun u => u.email == e) with
    | none => rw [hfind] at hr; simp at hr
    | some u =>
      rw [hfind] at hr
      simp only [Option.map_some'] at hr
      refine ⟨u, List.mem_of_find?_eq_some hfind, ?_,
        (Option.some.inj hr).symm⟩
      have hp := List.find?_some hfind
      simpa using hp
  · unfold buscar_usuario_por_email
    rw [Option.map_eq_none', List.find?_eq_none]
    simp

/-- Witness for C8: on a store holding exactly the user "Ana", the
lookup returns her row. -/
theorem buscar_usuario_por_email_spec_witness :
    ∃ u, u ∈ (⟨[⟨1, "Ana", "ana@ex.com", generate_password_hash 0 "s"⟩], 2⟩ :
        BancoUsuarios).rows ∧
      u.email = "ana@ex.com" ∧
      ((1, "Ana", generate_password_hash 0 "s") :
        Nat × String × PasswordHash) = (u.id, u.nome, u.senha) :=
  (buscar_usuario_por_email_spec
    ⟨[⟨1, "Ana", "ana@ex.com", generate_password_hash 0 "s"⟩], 2⟩
    "ana@ex.com").1 (1, "Ana", generate_password_hash 0 "s") (by decide)

/-- C5: in either app, a registration POST whose submitted name or
email field is empty inserts no row (the store argument is returned
unchanged) and responds with the validation-error flash and a redirect
back to the form, for every prior store state. -/
theorem empty_name_or_email_rejected (dbC : BancoClientes)
    (dbU : BancoUsuarios) (nome email senha : String) (salt : Nat)
    (h : nome = "" ∨ email = "") :
    salvar dbC nome email =
      ({ flashes := [{ message := "Preencha todos os campos!",
                       category := "danger" }],
         outcome := .redirect .index }, dbC) ∧
    cadastro_post dbU nome email senha salt =
      some ({ flashes := [{ message := "Preencha todos os campos!",
                            category := "danger" }],
              outcome := .redirect .cadastro }, dbU) := by
  have hstrip : pyStrip nome = "" ∨ pyStrip email = "" := by
    rcases h with h | h
    · left; rw [h]; rfl
    · right; rw [h]; rfl
  constructor
  · unfold salvar
    rcases hstrip with h' | h' <;> simp [h']
  · unfold cadastro_post
    rcases hstrip with h' | h' <;> simp [h']

/-- Witness for C5 with an empty name against the two fresh stores. -/
theorem empty_name_or_email_rejected_witness :
    (("" : String) = "" ∨ ("x@y" : String) = "") ∧
    (salvar criar_tabela_clientes "" "x@y" =
      ({ flashes := [{ message := "Preencha todos os campos!",
                       category := "danger" }],
         outcome := .redirect .index }, criar_tabela_clientes) ∧
     cadastro_post criar_tabela_usuarios "" "x@y" "pw" 0 =
      some ({ flashes := [{ message := "Preencha todos os campos!",
                            category := "danger" }],
              outcome := .redirect .cadastro }, criar_tabela_usuarios)) :=
  ⟨Or.inl rfl,
   empty_name_or_email_rejected criar_tabela_clientes criar_tabela_usuarios
     "" "x@y" "pw" 0 (Or.inl rfl)⟩

/-- C6: a customer-registration POST with non-empty (stripped) name and
email succeeds, appending one row with the store-assigned id
`db.nextId`, which differs from every id already present; the
subsequent listing is exactly the old listing plus that one new
(id, nome, email) row. -/
theorem salvar_fresh_insert (db : BancoClientes) (nome email : String)
    (hwf : db.WF) (hn : pyStrip nome ≠ "") (he : pyStrip email ≠ "") :
    salvar db nome email =
      ({ flashes := [{ message := "Cliente cadastrado com sucesso!",
                       category := "success" }],
         outcome := .redirect .listar },
       inserir_cliente db (pyStrip nome) (pyStrip email)) ∧
    listar_clientes (inserir_cliente db (pyStrip nome) (pyStrip email)) =
      listar_clientes db ++ [(db.nextId, pyStrip nome, pyStrip email)] ∧
    (∀ c ∈ db.rows, c.id ≠ db.nextId) := by
  refine ⟨?_, ?_, ?_⟩
  · unfold salvar
    simp [hn, he]
  · simp [listar_clientes, inserir_cliente]
  · exact fun c hc => Nat.ne_of_lt (hwf c hc)

/-- Witness for C6: registering "Ana" on the fresh store. -/
theorem salvar_fresh_insert_witness :
    criar_tabela_clientes.WF ∧ pyStrip "Ana" ≠ "" ∧
    pyStrip "ana@ex.com" ≠ "" ∧
    (salvar criar_tabela_clientes "Ana" "ana@ex.com" =
      ({ flashes := [{ message := "Cliente cadastrado com sucesso!",
                       category := "success" }],
         outcome := .redirect .listar },
       inserir_cliente criar_tabela_clientes (pyStrip "Ana")
         (pyStrip "ana@ex.com")) ∧
     listar_clientes (inserir_cliente criar_tabela_clientes (pyStrip "Ana")
         (pyStrip "ana@ex.com")) =
       listar_clientes criar_tabela_clientes ++
         [(criar_tabela_clientes.nextId, pyStrip "Ana",
           pyStrip "ana@ex.com")] ∧
     (∀ c ∈ criar_tabela_clientes.rows, c.id ≠ criar_tabela_clientes.nextId)) :=
  ⟨by intro c hc; simp [criar_tabela_clientes] at hc, by decide, by decide,
   salvar_fresh_insert criar_tabela_clientes "Ana" "ana@ex.com"
     (by intro c hc; simp [criar_tabela_clientes] at hc)
     (by decide) (by decide)⟩

/-- C7: the base registration app enforces no email uniqueness: with a
customer already stored under email `c.email`, a second registration
with the same email and a non-empty name also succeeds, and the listing
afterwards contains both rows, with distinct ids. -/
theorem duplicate_email_second_insert_ok (db : BancoClientes)
    (c : Cliente) (nome : String) (hwf : db.WF) (hc : c ∈ db.rows)
    (hn : pyStrip nome ≠ "") (he : pyStrip c.email = c.email)
    (hne : c.email ≠ "") :
    (salvar db nome c.email).1.outcome = .redirect .listar ∧
    (c.id, c.nome, c.email) ∈ listar_clientes (salvar db nome c.email).2 ∧
    (db.nextId, pyStrip nome, c.email) ∈
      listar_clientes (salvar db nome c.email).2 ∧
    db.nextId ≠ c.id := by
  have he' : pyStrip c.email ≠ "" := by rw [he]; exact hne
  have hsalvar : (salvar db nome c.email).2 =
      inserir_cliente db (pyStrip nome) c.email := by
    unfold salvar
    simp [hn, he, hne]
  refine ⟨?_, ?_, ?_, ?_⟩
  · unfold salvar
    simp [hn, he']
  · rw [hsalvar]
    simp only [listar_clientes, inserir_cliente, List.map_append,
      List.mem_append]
    exact Or.inl (List.mem_map.mpr ⟨c, hc, rfl⟩)
  · rw [hsalvar]
    simp [listar_clientes, inserir_cliente]
  · exact fun heq => Nat.lt_irrefl _ (heq ▸ hwf c hc)

/-- Witness for C7: a second "ana@ex.com" row next to the first. -/
theorem duplicate_email_second_insert_ok_witness :
    (⟨[⟨1, "Ana", "ana@ex.com"⟩], 2⟩ : BancoClientes).WF ∧
    (⟨1, "Ana", "ana@ex.com"⟩ : Cliente) ∈
      (⟨[⟨1, "Ana", "ana@ex.com"⟩], 2⟩ : BancoClientes).rows ∧
    pyStrip "Bia" ≠ "" ∧
    ((salvar ⟨[⟨1, "Ana", "ana@ex.com"⟩], 2⟩ "Bia"
        (Cliente.email ⟨1, "Ana", "ana@ex.com"⟩)).1.outcome =
      .redirect .listar ∧
     ((1 : Nat), "Ana", "ana@ex.com") ∈
       listar_clientes (salvar ⟨[⟨1, "Ana", "ana@ex.com"⟩], 2⟩ "Bia"
         (Cliente.email ⟨1, "Ana", "ana@ex.com"⟩)).2 ∧
     ((⟨[⟨1, "Ana", "ana@ex.com"⟩], 2⟩ : BancoClientes).nextId,
       pyStrip "Bia", "ana@ex.com") ∈
       listar_clientes (salvar ⟨[⟨1, "Ana", "ana@ex.com"⟩], 2⟩ "Bia"
         (Cliente.email ⟨1, "Ana", "ana@ex.com"⟩)).2 ∧
     (⟨[⟨1, "Ana", "ana@ex.com"⟩], 2⟩ : BancoClientes).nextId ≠ 1) :=
  ⟨by intro c hc; simp at hc; rw [hc]; decide, by simp, by decide,
   duplicate_email_second_insert_ok ⟨[⟨1, "Ana", "ana@ex.com"⟩], 2⟩
     ⟨1, "Ana", "ana@ex.com"⟩ "Bia"
     (by intro c hc; simp at hc; rw [hc]; decide)
     (by simp) (by decide) (by decide) (by decide)⟩

/-- At most one element of a list satisfies `f · == b` when the mapped
list `l.map f` has no duplicates. -/
theorem length_filter_le_one_of_nodup_map {α β : Type} [DecidableEq β]
    (f : α → β) (b : β) :
    ∀ l : List α, (l.map f).Nodup →
      (l.filter (fun x => f x == b)).length ≤ 1 := by
  intro l
  induction l with
  | nil => intro _; simp
  | cons a l ih =>
    intro hnd
    rw [List.map_cons, List.nodup_cons] at hnd
    by_cases hab : f a = b
    · have hnil : l.filter (fun x => f x == b) = [] := by
        rw [List.filter_eq_nil_iff]
        intro x hx hxb
        exact hnd.1 (List.mem_map.mpr
          ⟨x, hx, by rw [eq_of_beq hxb, hab]⟩)
      simp [List.filter_cons, hab, hnil]
    · rw [List.filter_cons, if_neg (by simpa using hab)]
      exact ih hnd.2

/-- C4: with a user already stored under the (stripped) submitted
email, a registration POST in the login app is rejected with the
duplicate-email flash, the store argument is returned unchanged, and —
under the UNIQUE(email) invariant — the store holds exactly one row
with that email. -/
theorem cadastro_duplicate_rejected (db : BancoUsuarios)
    (nome email senha : String) (salt : Nat) (u : Usuario)
    (hn : pyStrip nome ≠ "") (he : pyStrip email ≠ "")
    (hs : pyStrip senha ≠ "")
    (hu : u ∈ db.rows) (hue : u.email = pyStrip email)
    (hnodup : (db.rows.map Usuario.email).Nodup) :
    cadastro_post db nome email senha salt =
      some ({ flashes := [{ message := "Este email ja esta cadastrado!",
                            category := "danger" }],
              outcome := .redirect .cadastro }, db) ∧
    (db.rows.filter (fun v => v.email == pyStrip email)).length = 1 := by
  obtain ⟨u', hfind⟩ : ∃ u',
      db.rows.find? (fun v => v.email == pyStrip email) = some u' := by
    rw [← Option.isSome_iff_exists, List.find?_isSome]
    exact ⟨u, hu, by simp [hue]⟩
  constructor
  · unfold cadastro_post
    simp [hn, he, hs, buscar_usuario_por_email, hfind]
  · refine Nat.le_antisymm
      (length_filter_le_one_of_nodup_map Usuario.email (pyStrip email)
        db.rows hnodup) ?_
    have hmem : u ∈ db.rows.filter (fun v => v.email == pyStrip email) :=
      List.mem_filter.mpr ⟨hu, by simp [hue]⟩
    exact Nat.succ_le_of_lt (List.length_pos.mpr
      (List.ne_nil_of_mem hmem))

/-- Witness for C4: re-registering "ana@ex.com" on a one-user store. -/
theorem cadastro_duplicate_rejected_witness :
    pyStrip "Bia" ≠ "" ∧ pyStrip "ana@ex.com" ≠ "" ∧ pyStrip "pw" ≠ "" ∧
    (⟨1, "Ana", "ana@ex.com", generate_password_hash 0 "s"⟩ : Usuario) ∈
      (⟨[⟨1, "Ana", "ana@ex.com", generate_password_hash 0 "s"⟩], 2⟩ :
        BancoUsuarios).rows ∧
    Usuario.email ⟨1, "Ana", "ana@ex.com", generate_password_hash 0 "s"⟩ =
      pyStrip "ana@ex.com" ∧
    ((⟨[⟨1, "Ana", "ana@ex.com", generate_password_hash 0 "s"⟩], 2⟩ :
        BancoUsuarios).rows.map Usuario.email).Nodup ∧
    (cadastro_post
        ⟨[⟨1, "Ana", "ana@ex.com", generate_password_hash 0 "s"⟩], 2⟩
        "Bia" "ana@ex.com" "pw" 0 =
      some ({ flashes := [{ message := "Este email ja esta cadastrado!",
                            category := "danger" }],
              outcome := .redirect .cadastro },
            ⟨[⟨1, "Ana", "ana@ex.com", generate_password_hash 0 "s"⟩], 2⟩) ∧
     ((⟨[⟨1, "Ana", "ana@ex.com", generate_password_hash 0 "s"⟩], 2⟩ :
        BancoUsuarios).rows.filter
          (fun v => v.email == pyStrip "ana@ex.com")).length = 1) :=
  ⟨by decide, by decide, by decide, by simp, by decide, by simp,
   cadastro_duplicate_rejected
     ⟨[⟨1, "Ana", "ana@ex.com", generate_password_hash 0 "s"⟩], 2⟩
     "Bia" "ana@ex.com" "pw" 0
     ⟨1, "Ana", "ana@ex.com", generate_password_hash 0 "s"⟩
     (by decide) (by decide) (by decide) (by simp) (by decide) (by simp)⟩

/-- C2: the two login failure modes — unknown email (store `db1`) and
known email with failing password verification (store `db2`) — produce
the same response: the same generic flash and the same redirect back to
login, so the two runs are indistinguishable to the client. -/
theorem login_failures_indistinguishable (db1 db2 : BancoUsuarios)
    (sess1 sess2 : Session) (email senha : String)
    (he : pyStrip email ≠ "") (hs : pyStrip senha ≠ "")
    (h1 : buscar_usuario_por_email db1 (pyStrip email) = none)
    (uid : Nat) (unome : String) (uhash : PasswordHash)
    (h2 : buscar_usuario_por_email db2 (pyStrip email) =
      some (uid, unome, uhash))
    (hv : verificar_senha uhash (pyStrip senha) = false) :
    (login_post db1 sess1 email senha).1 =
      (login_post db2 sess2 email senha).1 ∧
    (login_post db1 sess1 email senha).1 =
      { flashes := [{ message := "Email ou senha incorretos!",
                      category := "danger" }],
        outcome := .redirect .login } := by
  have e1 : (login_post db1 sess1 email senha).1 =
      { flashes := [{ message := "Email ou senha incorretos!",
                      category := "danger" }],
        outcome := .redirect .login } := by
    unfold login_post
    simp [he, hs, h1]
  have e2 : (login_post db2 sess2 email senha).1 =
      { flashes := [{ message := "Email ou senha incorretos!",
                      category := "danger" }],
        outcome := .redirect .login } := by
    unfold login_post
    simp [he, hs, h2, hv]
  exact ⟨e1.trans e2.symm, e1⟩

/-- Witness for C2: unknown email on the empty store versus wrong
password on a one-user store. -/
theorem login_failures_indistinguishable_witness :
    pyStrip "ana@ex.com" ≠ "" ∧ pyStrip "wrong" ≠ "" ∧
    buscar_usuario_por_email criar_tabela_usuarios (pyStrip "ana@ex.com") =
      none ∧
    buscar_usuario_por_email
        ⟨[⟨1, "Ana", "ana@ex.com", generate_password_hash 0 "s"⟩], 2⟩
        (pyStrip "ana@ex.com") =
      some (1, "Ana", generate_password_hash 0 "s") ∧
    verificar_senha (generate_password_hash 0 "s") (pyStrip "wrong") =
      false ∧
    ((login_post criar_tabela_usuarios Session.empty "ana@ex.com"
        "wrong").1 =
      (login_post ⟨[⟨1, "Ana", "ana@ex.com", generate_password_hash 0 "s"⟩],
          2⟩ Session.empty "ana@ex.com" "wrong").1 ∧
     (login_post criar_tabela_usuarios Session.empty "ana@ex.com"
        "wrong").1 =
      { flashes := [{ message := "Email ou senha incorretos!",
                      category := "danger" }],
        outcome := .redirect .login }) :=
  ⟨by decide, by decide, by decide, by decide, by decide,
   login_failures_indistinguishable criar_tabela_usuarios
     ⟨[⟨1, "Ana", "ana@ex.com", generate_password_hash 0 "s"⟩], 2⟩
     Session.empty Session.empty "ana@ex.com" "wrong"
     (by decide) (by decide) (by decide)
     1 "Ana" (generate_password_hash 0 "s") (by decide) (by decide)⟩

/-- C10: every failing POST to the login route — identified by its
response, a redirect back to login, which exactly the three failure
branches produce — leaves the session exactly as it was before the
request. -/
theorem login_failure_preserves_session (db : BancoUsuarios)
    (sess : Session) (email senha : String)
    (h : (login_post db sess email senha).1.outcome = .redirect .login) :
    (login_post db sess email senha).2 = sess := by
  unfold login_post at h ⊢
  by_cases h1 : pyStrip email = "" ∨ pyStrip senha = ""
  · simp [h1]
  · simp only [h1, if_false] at h ⊢
    cases hb : buscar_usuario_por_email db (pyStrip email) with
    | none => simp [hb]
    | some r =>
      obtain ⟨uid, unome, uhash⟩ := r
      by_cases hv : verificar_senha uhash (pyStrip senha)
      · rw [hb] at h
        simp [hv] at h
      · simp [hb, hv]

/-- Witness for C10: a failing login against the empty store keeps the
session untouched. -/
theorem login_failure_preserves_session_witness :
    (login_post criar_tabela_usuarios
        ⟨some 7, some "Gal"⟩ "ana@ex.com" "pw").1.outcome =
      .redirect .login ∧
    (login_post criar_tabela_usuarios
        ⟨some 7, some "Gal"⟩ "ana@ex.com" "pw").2 = ⟨some 7, some "Gal"⟩ :=
  ⟨by decide,
   login_failure_preserves_session criar_tabela_usuarios
     ⟨some 7, some "Gal"⟩ "ana@ex.com" "pw" (by decide)⟩

/-- C9: when the session holds a user id, the dashboard route's
response is computed from the session alone: it is identical for any
two store states (in particular one from which the user was deleted),
and it renders the session's cached user name. -/
theorem dashboard_ignores_store (db1 db2 : BancoUsuarios)
    (sess : Session) (salt1 salt2 : Nat) (uid : Nat)
    (h : sess.usuario_id = some uid) :
    (handle db1 sess salt1 .getDashboard).map Prod.fst =
      (handle db2 sess salt2 .getDashboard).map Prod.fst ∧
    (∀ nome, sess.usuario_nome = some nome →
      (handle db1 sess salt1 .getDashboard).map Prod.fst =
        some { flashes := [],
               outcome := .render (.dashboardPage nome) }) := by
  constructor
  · simp only [handle, Option.map_map]
    cases dashboard_get sess <;> rfl
  · intro nome hn
    simp [handle, dashboard_get, h, hn]

/-- Witness for C9: a session for deleted user 1 dashboards identically
over the empty store and a populated one. -/
theorem dashboard_ignores_store_witness :
    (⟨some 1, some "Ana"⟩ : Session).usuario_id = some 1 ∧
    ((handle criar_tabela_usuarios ⟨some 1, some "Ana"⟩ 0
        .getDashboard).map Prod.fst =
      (handle ⟨[⟨2, "Bia", "bia@ex.com", generate_password_hash 0 "t"⟩], 3⟩
        ⟨some 1, some "Ana"⟩ 5 .getDashboard).map Prod.fst ∧
     (∀ nome, (⟨some 1, some "Ana"⟩ : Session).usuario_nome = some nome →
      (handle criar_tabela_usuarios ⟨some 1, some "Ana"⟩ 0
          .getDashboard).map Prod.fst =
        some { flashes := [],
               outcome := .render (.dashboardPage nome) })) :=
  ⟨rfl,
   dashboard_ignores_store criar_tabela_usuarios
     ⟨[⟨2, "Bia", "bia@ex.com", generate_password_hash 0 "t"⟩], 3⟩
     ⟨some 1, some "Ana"⟩ 0 5 1 rfl⟩

/-- C3: the session gate over a request sequence: with no user id in
the session the dashboard redirects to login; a successful login POST
(email found, password verified) stores id and name in the session and
the dashboard then renders the stored user name; after logout the
dashboard redirects to login again. -/
theorem session_gate_lifecycle (db : BancoUsuarios) (sess : Session)
    (email senha : String) (uid : Nat) (unome : String)
    (uhash : PasswordHash)
    (hid : sess.usuario_id = none)
    (he : pyStrip email ≠ "") (hs : pyStrip senha ≠ "")
    (hfound : buscar_usuario_por_email db (pyStrip email) =
      some (uid, unome, uhash))
    (hverify : verificar_senha uhash (pyStrip senha) = true) :
    dashboard_get sess =
      some { flashes := [{ message := "Faca login para acessar!",
                           category := "danger" }],
             outcome := .redirect .login } ∧
    (login_post db sess email senha).2 =
      { usuario_id := some uid, usuario_nome := some unome } ∧
    dashboard_get (login_post db sess email senha).2 =
      some { flashes := [],
             outcome := .render (.dashboardPage unome) } ∧
    dashboard_get (logout_get (login_post db sess email senha).2).2 =
      some { flashes := [{ message := "Faca login para acessar!",
                           category := "danger" }],
             outcome := .redirect .login } := by
  have hsess : (login_post db sess email senha).2 =
      { usuario_id := some uid, usuario_nome := some unome } := by
    unfold login_post
    simp [he, hs, hfound, hverify]
  refine ⟨?_, hsess, ?_, ?_⟩
  · simp [dashboard_get, hid]
  · rw [hsess]
    rfl
  · simp [logout_get, dashboard_get, Session.empty]

/-- Witness for C3: the full login/dashboard/logout cycle for "Ana"
starting from the empty session. -/
theorem session_gate_lifecycle_witness :
    Session.empty.usuario_id = none ∧
    pyStrip "ana@ex.com" ≠ "" ∧ pyStrip "s" ≠ "" ∧
    buscar_usuario_por_email
        ⟨[⟨1, "Ana", "ana@ex.com", generate_password_hash 0 "s"⟩], 2⟩
        (pyStrip "ana@ex.com") =
      some (1, "Ana", generate_password_hash 0 "s") ∧
    verificar_senha (generate_password_hash 0 "s") (pyStrip "s") = true ∧
    (dashboard_get Session.empty =
      some { flashes := [{ message := "Faca login para acessar!",
                           category := "danger" }],
             outcome := .redirect .login } ∧
     (login_post ⟨[⟨1, "Ana", "ana@ex.com", generate_password_hash 0 "s"⟩],
          2⟩ Session.empty "ana@ex.com" "s").2 =
      { usuario_id := some 1, usuario_nome := some "Ana" } ∧
     dashboard_get (login_post
        ⟨[⟨1, "Ana", "ana@ex.com", generate_password_hash 0 "s"⟩], 2⟩
        Session.empty "ana@ex.com" "s").2 =
      some { flashes := [],
             outcome := .render (.dashboardPage "Ana") } ∧
     dashboard_get (logout_get (login_post
        ⟨[⟨1, "Ana", "ana@ex.com", generate_password_hash 0 "s"⟩], 2⟩
        Session.empty "ana@ex.com" "s").2).2 =
      some { flashes := [{ message := "Faca login para acessar!",
                           category := "danger" }],
             outcome := .redirect .login }) :=
  ⟨rfl, by decide, by decide, by decide, by decide,
   session_gate_lifecycle
     ⟨[⟨1, "Ana", "ana@ex.com", generate_password_hash 0 "s"⟩], 2⟩
     Session.empty "ana@ex.com" "s" 1 "Ana" (generate_password_hash 0 "s")
     rfl (by decide) (by decide) (by decide) (by decide)⟩

end PyWebLab
